import Mathlib

/-!
Verification of the session lifecycle coordinator of the
cloudflare-rdp-system repository (src/api/main.py) against its
natural-language specification.

The Python module is shallowly embedded: every handler becomes a pure
Lean function over an explicit store state (a list of session rows) and
explicit outcome parameters for the effectful collaborators (the
provisioning shell script, the store insert/update calls).  String
processing mirrors Python string semantics over `List Char`
(`str.split`, `str.strip`, `dict` last-write-wins lookup).

Note that src/api/main.py registers the route `POST /api/v1/sessions`
twice (two `def create_session` handlers) and `DELETE
/api/v1/sessions/{session_sub}` twice (two `def delete_session`
handlers).  FastAPI appends routes in definition order and Starlette
dispatches to the first match, so the first definition of each pair is
the one that serves requests; the second is dead code.  Both are
embedded, with suffixes `_v1` (first definition, the serving one) and
`_v2` (second definition).
-/

deriving instance DecidableEq for Except

/-- An HTTPException: status code plus detail string. -/
structure ApiError where
  code : Nat
  detail : String
deriving DecidableEq

/-- Request body of POST /api/v1/sessions (pydantic model SessionCreate). -/
structure SessionCreate where
  duration_hours : Int := 4
  rdp_username : String := "admin"
deriving DecidableEq

/-- A session record as built for a store insert.  Fields are `Option`
because the Python code builds them with `dict.get`, which can produce
`None`.  Timestamps are integers (seconds). -/
structure SessionRecord where
  user_id : Nat
  session_sub : Option String
  fqdn : Option String
  rdp_username : Option String
  rdp_password : Option String
  status : String
  created_at : Option Int
  expires_at : Int
deriving DecidableEq

/-- A stored session row: the record plus the store-assigned primary key. -/
structure SessionRow where
  id : Nat
  payload : SessionRecord
deriving DecidableEq

/-- The response model SessionResponse of the API. -/
structure SessionResponseM where
  session_sub : Option String
  fqdn : Option String
  rdp_username : Option String
  rdp_password : Option String
  expires_at : Int
  status : String
deriving DecidableEq

/-- Observable outcome of one create_session request: HTTP result plus
the trace of effects (provisioner create calls, provisioner cleanup
calls with their argument, attempted store inserts). -/
structure CreateOutcome where
  result : Except ApiError SessionResponseM
  provisionCalls : Nat
  cleanupCalls : List (Option String)
  insertAttempts : List SessionRecord
deriving DecidableEq

/-- Observable outcome of one delete_session request. -/
structure DeleteOutcome where
  result : Except ApiError Nat
  store : List SessionRow
  cleanupCalls : List String
deriving DecidableEq

/-- Observable outcome of one admin revoke request. -/
structure RevokeOutcome where
  result : Except ApiError Nat
  store : List SessionRow
  cleanupCalls : List String
deriving DecidableEq

/-- One entry of the cleanup_results list built by worker_cleanup. -/
structure ReapEntry where
  session_sub : Option String
  status : String
  success : Option Bool
deriving DecidableEq

/-- Observable outcome of one POST /api/v1/worker/cleanup request. -/
structure ReapOutcome where
  result : Except ApiError String
  store : List SessionRow
  cleanupCalls : List (Option String)
  results : List ReapEntry
deriving DecidableEq

/-! ### Python string semantics over `List Char` -/

/-- Python str.strip character class (ASCII whitespace). -/
def pyIsSpace (c : Char) : Bool :=
  c = ' ' || c = '\t' || c = '\n' || c = '\r' || c = '\x0b' || c = '\x0c'

/-- Python str.strip. -/
def pyStrip (s : List Char) : List Char :=
  ((s.dropWhile pyIsSpace).reverse.dropWhile pyIsSpace).reverse

/-- Index of the first occurrence of `sep` in `s`, if any. -/
def findSub (sep : List Char) : List Char → Option Nat
  | [] => if sep.isEmpty then some 0 else none
  | c :: rest =>
    if List.isPrefixOf sep (c :: rest) then some 0
    else (findSub sep rest).map (· + 1)

/-- Python substring membership test `sep in s`. -/
def pyContainsSub (sep s : List Char) : Bool :=
  (findSub sep s).isSome

/-- Python `s.split(sep)[0]`: the text before the first occurrence of
`sep` (all of `s` when `sep` does not occur). -/
def pyFirstPiece (sep s : List Char) : List Char :=
  match findSub sep s with
  | none => s
  | some i => s.take i

/-- Python `s.split(sep)[1]`: the text between the first occurrence of
`sep` and the following occurrence (or the end).  `none` models the
IndexError raised when `sep` does not occur. -/
def pySecondPiece (sep s : List Char) : Option (List Char) :=
  match findSub sep s with
  | none => none
  | some i =>
    let rest := s.drop (i + sep.length)
    match findSub sep rest with
    | none => some rest
    | some j => some (rest.take j)

/-- Python `s.split(c)` for a single-character separator. -/
def splitOnChar (c : Char) : List Char → List (List Char)
  | [] => [[]]
  | x :: xs =>
    match splitOnChar c xs with
    | [] => [[]]
    | h :: t => if x = c then [] :: h :: t else (x :: h) :: t

/-- Python `s.split(c, 1)` when `c` occurs in `s`: the pair of the text
before the first `c` and the text after it. -/
def splitFirstChar (c : Char) : List Char → List Char × List Char
  | [] => ([], [])
  | x :: xs =>
    if x = c then ([], xs)
    else
      let r := splitFirstChar c xs
      (x :: r.1, r.2)

/-- Python dict lookup with last-write-wins insertion semantics over
the association list of assignments. -/
def pyDictGet (d : List (List Char × List Char)) (k : List Char) : Option (List Char) :=
  ((d.filter (fun kv => kv.1 == k)).getLast?).map (fun kv => kv.2)

/-- Python str() of an optional string (None prints as "None"). -/
def pyStr (o : Option String) : String :=
  match o with
  | some s => s
  | none => "None"

def optStr (o : Option (List Char)) : Option String :=
  o.map String.mk

/-- The literal start marker of the machine-readable output block. -/
def api_output_start : List Char := "--- API_OUTPUT_START ---".data

/-- The literal end marker of the machine-readable output block. -/
def api_output_end : List Char := "--- API_OUTPUT_END ---".data

/-- The KEY=VALUE assignments executed by the parsing loop of the first
create_session definition (main.py lines 186-189): every line of the
block that contains an equals sign contributes `key.strip() =
value.strip()`, lines without an equals sign are skipped. -/
def kv_lines_to_dict (lines : List (List Char)) : List (List Char × List Char) :=
  lines.foldl
    (fun d line =>
      if line.elem '=' then
        let kv := splitFirstChar '=' line
        d ++ [(pyStrip kv.1, pyStrip kv.2)]
      else d)
    []

/-- Output parsing of the FIRST create_session definition (main.py lines
179-191): both markers must occur in the output, the block between them
is stripped and split on newlines, and lines with an equals sign are
collected into a dict.  Required keys are NOT checked.  `none` models
the HTTPException(500, "RDP script returned unparsable output."). -/
def parse_output_v1 (script_output : String) : Option (List (List Char × List Char)) :=
  let s := script_output.data
  if pyContainsSub api_output_start s && pyContainsSub api_output_end s then
    let content := pyStrip (pyFirstPiece api_output_end ((pySecondPiece api_output_start s).getD []))
    some (kv_lines_to_dict (splitOnChar '\n' content))
  else none

/-- The FIRST (route-serving) definition of create_session (main.py
lines 158-221).  Effect parameters: `scriptResult` is the outcome of
run_shell_script on the create script (ok stdout, or the HTTPException
it raises); `insertOk` tells whether the store insert call succeeds;
`cleanupResult` is the outcome of run_shell_script on the cleanup
script.  The active-session read (line 162) is modelled as a pure query
over the store state.

The `except Exception` branch (main.py lines 217-221) is entered either
on a failing insert call or on the pydantic ValidationError raised by
the SessionResponse construction (lines 208-215, inside the same try:
the model SessionResponse declares non-optional str fields, so a None
value for session_sub, fqdn, rdp_username or rdp_password raises).  In
that branch the compensating cleanup is invoked, unguarded, with
`output_dict.get("SESSION_SUB")`.

When that argument is None, subprocess.run raises TypeError while
building the argument list, before the script process starts; TypeError
is not among the exceptions run_shell_script converts, so it propagates
uncaught out of the already-running except handler and surfaces as the
framework generic 500 Internal Server Error.  The trace records the
attempted invocation with its None argument; the cleanup outcome oracle
is never consulted (no script ran).  When the argument is a string, the
unguarded call means a cleanup failure replaces the 503 "Database
error" response with the cleanup HTTPException. -/
def create_v1_insert_except (session_data_db : SessionRecord)
    (cleanupResult : Except ApiError Unit) : CreateOutcome :=
  match session_data_db.session_sub with
  | none =>
    { result := .error ⟨500, "Internal Server Error"⟩,
      provisionCalls := 1, cleanupCalls := [none],
      insertAttempts := [session_data_db] }
  | some sub =>
    match cleanupResult with
    | .ok _ =>
      { result := .error ⟨503, "Database error. Session creation failed and tunnel was cleaned up."⟩,
        provisionCalls := 1, cleanupCalls := [some sub],
        insertAttempts := [session_data_db] }
    | .error ce =>
      { result := .error ce,
        provisionCalls := 1, cleanupCalls := [some sub],
        insertAttempts := [session_data_db] }

/-- The FIRST (route-serving) definition of create_session, continued
(main.py lines 158-221).  Note the properties visible below: there is
NO duration validation; the parse step checks only the markers, not
the required keys; and a 201 success requires the pydantic
SessionResponse construction to succeed, which needs all four string
fields present — any None value diverts into the except branch
(`create_v1_insert_except`) even though the insert itself succeeded. -/
def create_session_v1 (store : List SessionRow) (uid : Nat) (input : SessionCreate)
    (now : Int) (scriptResult : Except ApiError String)
    (insertOk : Bool) (cleanupResult : Except ApiError Unit) : CreateOutcome :=
  if store.filter (fun r => r.payload.user_id == uid && r.payload.status == "active") ≠ [] then
    { result := .error ⟨409, "User already has an active RDP session. Please terminate the existing one first."⟩,
      provisionCalls := 0, cleanupCalls := [], insertAttempts := [] }
  else
    let expiry_time := now + 3600 * input.duration_hours
    match scriptResult with
    | .error e =>
      { result := .error e, provisionCalls := 1, cleanupCalls := [], insertAttempts := [] }
    | .ok script_output =>
      match parse_output_v1 script_output with
      | none =>
        { result := .error ⟨500, "RDP script returned unparsable output."⟩,
          provisionCalls := 1, cleanupCalls := [], insertAttempts := [] }
      | some output_dict =>
        let session_data_db : SessionRecord :=
          { user_id := uid,
            session_sub := optStr (pyDictGet output_dict "SESSION_SUB".data),
            fqdn := optStr (pyDictGet output_dict "FQDN".data),
            rdp_username := optStr (pyDictGet output_dict "RDP_USERNAME".data),
            rdp_password := optStr (pyDictGet output_dict "RDP_PASSWORD".data),
            status := "active",
            created_at := none,
            expires_at := expiry_time }
        if insertOk then
          match session_data_db.session_sub, session_data_db.fqdn,
                session_data_db.rdp_username, session_data_db.rdp_password with
          | some a, some b, some c, some d =>
            { result := .ok
                { session_sub := some a,
                  fqdn := some b,
                  rdp_username := some c,
                  rdp_password := some d,
                  expires_at := expiry_time,
                  status := "active" },
              provisionCalls := 1, cleanupCalls := [], insertAttempts := [session_data_db] }
          | _, _, _, _ =>
            create_v1_insert_except session_data_db cleanupResult
        else
          create_v1_insert_except session_data_db cleanupResult

/-- Output parsing of the SECOND create_session definition (main.py
lines 329-349): `split(start)[1]` raises IndexError when the start
marker is absent (modelled by `pySecondPiece` returning `none`), the
end marker is NOT required (`split(end)[0]` of a marker-free string is
the whole string), every line of the stripped block must contain an
equals sign (else `key, value = line.split('=', 1)` raises ValueError),
and the keys SESSION_SUB, FQDN and RDP_PASSWORD must all be present
(else KeyError).  Any of these exceptions is caught and mapped to the
HTTPException(500, "Failed to parse ..."), modelled as `none`. -/
def parse_output_v2 (script_output : String) : Option (String × String × String) :=
  match pySecondPiece api_output_start script_output.data with
  | none => none
  | some seg =>
    let api_output_block := pyFirstPiece api_output_end seg
    let lines := splitOnChar '\n' (pyStrip api_output_block)
    if lines.all (fun line => line.elem '=') then
      let output_data := kv_lines_to_dict lines
      match pyDictGet output_data "SESSION_SUB".data,
            pyDictGet output_data "FQDN".data,
            pyDictGet output_data "RDP_PASSWORD".data with
      | some a, some b, some c => some (String.mk a, String.mk b, String.mk c)
      | _, _, _ => none
    else none

/-- In the parse-failure branch of the second create_session definition
the code attempts `run_shell_script(CLEANUP_SCRIPT, [session_sub])`
inside a bare try/except.  The local `session_sub` is bound only when
the KEY=VALUE loop completed and the SESSION_SUB key was present; when
it is unbound, the NameError is swallowed and no cleanup call happens.
This function gives the argument of the cleanup call, if one is made. -/
def v2_sub_if_bound (script_output : String) : Option String :=
  match pySecondPiece api_output_start script_output.data with
  | none => none
  | some seg =>
    let lines := splitOnChar '\n' (pyStrip (pyFirstPiece api_output_end seg))
    if lines.all (fun line => line.elem '=') then
      optStr (pyDictGet (kv_lines_to_dict lines) "SESSION_SUB".data)
    else none

/-- The SECOND (dead, shadowed-route) definition of create_session
(main.py lines 301-383).  It validates the duration, checks the
one-active-session rule, parses with required-key checking, reads the
clock twice (`t1` at line 352 for expires_at, `t2` at line 361 for
created_at), and on insert failure attempts a compensating cleanup
whose own failure is swallowed (`except: pass`), so the cleanup outcome
is not a parameter. -/
def create_session_v2 (store : List SessionRow) (uid : Nat) (input : SessionCreate)
    (scriptResult : Except ApiError String) (t1 t2 : Int)
    (insertOk : Bool) : CreateOutcome :=
  if ¬ (1 ≤ input.duration_hours ∧ input.duration_hours ≤ 24) then
    { result := .error ⟨400, "Duration must be between 1 and 24 hours."⟩,
      provisionCalls := 0, cleanupCalls := [], insertAttempts := [] }
  else
    match store.filter (fun r => r.payload.user_id == uid && r.payload.status == "active") with
    | a :: _ =>
      { result := .error ⟨409, "User already has an active session: " ++ pyStr a.payload.session_sub⟩,
        provisionCalls := 0, cleanupCalls := [], insertAttempts := [] }
    | [] =>
      match scriptResult with
      | .error e =>
        { result := .error e, provisionCalls := 1, cleanupCalls := [], insertAttempts := [] }
      | .ok script_output =>
        match parse_output_v2 script_output with
        | none =>
          { result := .error ⟨500, "Failed to parse RDP session details from script output. Cleanup attempted."⟩,
            provisionCalls := 1,
            cleanupCalls :=
              match v2_sub_if_bound script_output with
              | some sub => [some sub]
              | none => [],
            insertAttempts := [] }
        | some (session_sub, fqdn, rdp_password) =>
          let expires_at := t1 + 3600 * input.duration_hours
          let session_record : SessionRecord :=
            { user_id := uid,
              session_sub := some session_sub,
              fqdn := some fqdn,
              rdp_username := some input.rdp_username,
              rdp_password := some rdp_password,
              status := "active",
              created_at := some t2,
              expires_at := expires_at }
          if insertOk then
            { result := .ok
                { session_sub := some session_sub,
                  fqdn := some fqdn,
                  rdp_username := some input.rdp_username,
                  rdp_password := some rdp_password,
                  expires_at := expires_at,
                  status := "active" },
              provisionCalls := 1, cleanupCalls := [], insertAttempts := [session_record] }
          else
            { result := .error ⟨503, "Failed to save session to database. Tunnel cleaned up."⟩,
              provisionCalls := 1, cleanupCalls := [some session_sub],
              insertAttempts := [session_record] }

/-- The FIRST (route-serving) definition of delete_session (main.py
lines 223-249).  The lookup requires ownership and status active; the
cleanup call failure is caught (`except HTTPException: pass`) so its
outcome is not observable (unused parameter); the status update to
"terminated" is keyed on session_sub only. -/
def delete_session_v1 (store : List SessionRow) (uid : Nat) (session_sub : String)
    (_cleanupResult : Except ApiError Unit) (updateOk : Bool) : DeleteOutcome :=
  if store.filter (fun r =>
      r.payload.session_sub == some session_sub &&
      r.payload.user_id == uid &&
      r.payload.status == "active") = [] then
    { result := .error ⟨404, "Active session not found or does not belong to user."⟩,
      store := store, cleanupCalls := [] }
  else if updateOk then
    { result := .ok 204,
      store := store.map (fun r =>
        if r.payload.session_sub == some session_sub then
          { r with payload := { r.payload with status := "terminated" } }
        else r),
      cleanupCalls := [session_sub] }
  else
    { result := .error ⟨503, "Database service unavailable. Session terminated but status update failed."⟩,
      store := store, cleanupCalls := [session_sub] }

/-- The SECOND (dead, shadowed-route) definition of delete_session
(main.py lines 385-417).  The lookup does not filter on status; a
non-active session yields a soft "already ..." message (modelled as
`.ok 200`); the cleanup call is NOT wrapped, so its failure aborts the
transition; the terminal status written is "cleaned". -/
def delete_session_v2 (store : List SessionRow) (uid : Nat) (session_sub : String)
    (cleanupResult : Except ApiError Unit) (updateOk : Bool) : DeleteOutcome :=
  match store.filter (fun r =>
      r.payload.session_sub == some session_sub && r.payload.user_id == uid) with
  | [] =>
    { result := .error ⟨404, "Session not found or does not belong to user."⟩,
      store := store, cleanupCalls := [] }
  | s :: _ =>
    if s.payload.status ≠ "active" then
      { result := .ok 200, store := store, cleanupCalls := [] }
    else
      match cleanupResult with
      | .error e => { result := .error e, store := store, cleanupCalls := [session_sub] }
      | .ok _ =>
        if updateOk then
          { result := .ok 200,
            store := store.map (fun r =>
              if r.payload.session_sub == some session_sub then
                { r with payload := { r.payload with status := "cleaned" } }
              else r),
            cleanupCalls := [session_sub] }
        else
          { result := .error ⟨503, "Tunnel cleaned up, but failed to update database status."⟩,
            store := store, cleanupCalls := [session_sub] }

/-- The admin revoke handler (main.py lines 268-287).  No lookup, no
ownership check, no 404 path: cleanup is attempted unconditionally
(failure swallowed, unused parameter), then the status of every row
matching the sub is set to "revoked". -/
def admin_revoke_session (session_sub : String) (store : List SessionRow)
    (_cleanupResult : Except ApiError Unit) (updateOk : Bool) : RevokeOutcome :=
  if updateOk then
    { result := .ok 204,
      store := store.map (fun r =>
        if r.payload.session_sub == some session_sub then
          { r with payload := { r.payload with status := "revoked" } }
        else r),
      cleanupCalls := [session_sub] }
  else
    { result := .error ⟨503, "Database service unavailable. Session terminated but status update failed."⟩,
      store := store, cleanupCalls := [session_sub] }

/-- Descending order on created_at, the sort used by the admin listing
(`order('created_at', desc=True)`). -/
def created_desc (a b : SessionRow) : Prop :=
  b.payload.created_at.getD 0 ≤ a.payload.created_at.getD 0

instance : DecidableRel created_desc := fun a b =>
  inferInstanceAs (Decidable (b.payload.created_at.getD 0 ≤ a.payload.created_at.getD 0))

def order_by_created_desc (store : List SessionRow) : List SessionRow :=
  List.insertionSort created_desc store

/-- The admin listing handler (main.py lines 251-266): returns every
session row of every user, newest first, or 503 when the store read
raises. -/
def admin_get_all_sessions (storeOk : Bool) (store : List SessionRow) :
    Except ApiError (List SessionRow) :=
  if storeOk then .ok (order_by_created_desc store)
  else .error ⟨503, "Database service unavailable."⟩

/-- A GET /api/v1/admin/sessions request: the route declares only the
get_supabase_client dependency, no api-key dependency, so the
X-API-Key header value carried by the request never reaches the
handler. -/
def admin_sessions_request (_apiKey : Option String) (storeOk : Bool)
    (store : List SessionRow) : Except ApiError (List SessionRow) :=
  admin_get_all_sessions storeOk store

/-- worker_auth (main.py lines 127-133): when the WORKER_SECRET
environment variable is unset or empty (Python falsy) every request is
allowed; otherwise a header different from the secret raises 401. -/
def worker_auth (wsEnv hdr : Option String) : Except ApiError Bool :=
  match wsEnv with
  | none => .ok true
  | some s =>
    if s = "" then .ok true
    else if hdr ≠ some s then .error ⟨401, "Invalid Worker Secret"⟩
    else .ok true

/-- The expired-session query of worker_cleanup (main.py line 431):
status active and expires_at strictly before now. -/
def expired_filter (now : Int) (store : List SessionRow) : List SessionRow :=
  store.filter (fun r => r.payload.status == "active" && decide (r.payload.expires_at < now))

/-- New status chosen for one expired session from its cleanup outcome
(main.py line 451). -/
def reap_new_status (co : Option String → Bool) (e : SessionRow) : String :=
  if co e.payload.session_sub then "expired_cleaned" else "cleanup_failed"

/-- One iteration of the worker_cleanup loop (main.py lines 439-457)
over the accumulated (store, cleanup calls, results) state: run the
cleanup script (outcome given by the oracle `co`), then try the status
update keyed by the row id (success given by the oracle `uo`); an
update failure leaves the store unchanged and records a
db_update_failed entry, and the loop continues either way. -/
def reap_step (co : Option String → Bool) (uo : Nat → Bool)
    (acc : List SessionRow × List (Option String) × List ReapEntry) (e : SessionRow) :
    List SessionRow × List (Option String) × List ReapEntry :=
  let calls := acc.2.1 ++ [e.payload.session_sub]
  if uo e.id then
    (acc.1.map (fun r =>
       if r.id == e.id then { r with payload := { r.payload with status := reap_new_status co e } }
       else r),
     calls,
     acc.2.2 ++ [⟨e.payload.session_sub, reap_new_status co e, some (co e.payload.session_sub)⟩])
  else
    (acc.1, calls, acc.2.2 ++ [⟨e.payload.session_sub, "db_update_failed", none⟩])

/-- The worker_cleanup handler body after authorization (main.py lines
419-463): query the expired active sessions, return early when none,
else process each one independently. -/
def worker_cleanup_core (now : Int) (store : List SessionRow)
    (co : Option String → Bool) (uo : Nat → Bool) : ReapOutcome :=
  if (expired_filter now store).isEmpty then
    { result := .ok "No expired sessions found.", store := store,
      cleanupCalls := [], results := [] }
  else
    { result := .ok "Processed expired sessions.",
      store := ((expired_filter now store).foldl (reap_step co uo) (store, [], [])).1,
      cleanupCalls := ((expired_filter now store).foldl (reap_step co uo) (store, [], [])).2.1,
      results := ((expired_filter now store).foldl (reap_step co uo) (store, [], [])).2.2 }

/-- A POST /api/v1/worker/cleanup request: the worker_auth dependency
runs first; a 401 from it prevents the handler body from running at
all. -/
def worker_cleanup_endpoint (wsEnv hdr : Option String) (now : Int)
    (store : List SessionRow) (co : Option String → Bool) (uo : Nat → Bool) : ReapOutcome :=
  match worker_auth wsEnv hdr with
  | .error e =>
    { result := .error e, store := store, cleanupCalls := [], results := [] }
  | .ok _ => worker_cleanup_core now store co uo

/-! ### Static name-resolution model of the module (for the import-time
NameError of the admin_dashboard route, main.py lines 465-485) -/

/-- Names bound at module level by the import statements of
src/api/main.py (lines 1-16). -/
def module_imported_names : List String :=
  ["os", "subprocess", "datetime", "timedelta", "Optional", "List", "Dict", "Any",
   "FastAPI", "Depends", "HTTPException", "status", "APIKeyHeader", "BaseModel",
   "create_client", "Client", "Request", "JSONResponse",
   "HTTP_200_OK", "HTTP_201_CREATED", "HTTP_204_NO_CONTENT", "timezone", "Form"]

/-- Names bound at module level by assignments, function definitions and
class definitions of src/api/main.py. -/
def module_defined_names : List String :=
  ["SUPABASE_URL", "SUPABASE_KEY", "SHELL_SCRIPT_DIR", "CREATE_SCRIPT", "CLEANUP_SCRIPT",
   "CF_API_TOKEN", "CF_ZONE_ID", "BASE_DOMAIN", "get_supabase_client", "app",
   "api_key_header", "User", "SessionCreate", "SessionResponse", "get_current_user",
   "run_shell_script", "WORKER_SECRET", "worker_auth", "get_user_details",
   "get_user_sessions", "create_session", "delete_session", "admin_get_all_sessions",
   "admin_revoke_session", "get_status", "worker_cleanup", "admin_dashboard", "get_session"]

/-- Every name bound anywhere at module level in src/api/main.py. -/
def module_bound_names : List String :=
  module_imported_names ++ module_defined_names

/-- Global names evaluated at import time by the admin_dashboard route
statement (main.py lines 465-466): the decorator expression
`app.get("/admin/sessions", response_class=HTMLResponse)` and the
parameter default annotations `Request`, `Client`,
`Depends(get_supabase_client)`. -/
def admin_dashboard_import_time_refs : List String :=
  ["app", "HTMLResponse", "Request", "Client", "Depends", "get_supabase_client"]

/-- Global names read by the admin_dashboard body (main.py lines
470-485), besides its parameters. -/
def admin_dashboard_body_free_refs : List String :=
  ["supabase", "datetime", "templates", "request"]

/-- Parameters of admin_dashboard. -/
def admin_dashboard_params : List String := ["request", "supabase"]

/-- The first name whose evaluation raises NameError, if any. -/
def first_undefined_name (refs : List String) : Option String :=
  refs.find? (fun n => !(module_bound_names.contains n))

/-- A well-formed script output used as concrete test input. -/
def good_output : String :=
  "--- API_OUTPUT_START ---\nSESSION_SUB=abc\nFQDN=abc.example.com\nRDP_PASSWORD=pw123\n--- API_OUTPUT_END ---\n"


/-- A script output whose block is well delimited but lacks the
required SESSION_SUB key. -/
def no_sub_output : String :=
  "--- API_OUTPUT_START ---\nFQDN=abc.example.com\nRDP_PASSWORD=pw123\n--- API_OUTPUT_END ---\n"

/-- A script output that also echoes RDP_USERNAME, so every field of
the pydantic response model is present. -/
def full_output : String :=
  "--- API_OUTPUT_START ---\nSESSION_SUB=abc\nFQDN=abc.example.com\nRDP_USERNAME=admin\nRDP_PASSWORD=pw123\n--- API_OUTPUT_END ---\n"

/-- Correctness property of one TerminateSession run whose cleanup call
fails with `e` while the status update succeeds: the request still
succeeds with 204, the cleanup was called once, and every row carrying
the session sub now has the terminal status "terminated". -/
def terminate_spec (store : List SessionRow) (uid : Nat) (sub : String) (e : ApiError) : Prop :=
  (delete_session_v1 store uid sub (.error e) true).result = .ok 204 ∧
  (delete_session_v1 store uid sub (.error e) true).cleanupCalls = [sub] ∧
  ∀ r ∈ (delete_session_v1 store uid sub (.error e) true).store,
    (r.payload.session_sub == some sub) = true → r.payload.status = "terminated"

/-- A concrete active session row owned by user 1. -/
def demo_row1 : SessionRow :=
  ⟨1, ⟨1, some "s1", some "s1.example.com", some "admin", some "pw1", "active", some 0, 5⟩⟩

/-- A second concrete active session row, owned by user 2. -/
def demo_row2 : SessionRow :=
  ⟨2, ⟨2, some "s2", some "s2.example.com", some "admin", some "pw2", "active", some 1, 6⟩⟩

/-- A one-session store whose only session is active and expired at
time 10. -/
def c3_store : List SessionRow := [demo_row1]

/-- The record inserted by the second create_session definition for the
witness request (duration 4h, both clock reads at 1000). -/
def c7_record : SessionRecord :=
  ⟨1, some "abc", some "abc.example.com", some "admin", some "pw123", "active",
   some 1000, 1000 + 3600 * 4⟩

/-! ### Helper lemmas about the worker_cleanup loop -/

theorem list_map_self {α : Type} (l : List α) (f : α → α) (h : ∀ a ∈ l, f a = a) :
    l.map f = l := by
  induction l with
  | nil => rfl
  | cons x xs ih =>
    simp only [List.map_cons, h x (List.mem_cons_self x xs)]
    rw [ih (fun a ha => h a (List.mem_cons_of_mem _ ha))]

/-- Claim C1, divergence of the serving handler: when the store insert
fails after successful provisioning AND the compensating cleanup
script also fails, the first (route-serving) create_session definition
does invoke the cleanup exactly once with the new session id, but the
unguarded run_shell_script call re-raises the cleanup failure, so the
caller receives the cleanup HTTPException (500 "RDP script failed: ...")
INSTEAD of the original insertion error (503 "Database error ...").
The second, dead definition swallows the cleanup failure as the spec
describes. -/
theorem C1_cleanup_failure_shadows_insert_error :
    create_session_v1 [] 1 ⟨4, "admin"⟩ 0 (.ok good_output) false
        (.error ⟨500, "RDP script failed: disk busy"⟩) =
      { result := .error ⟨500, "RDP script failed: disk busy"⟩,
        provisionCalls := 1,
        cleanupCalls := [some "abc"],
        insertAttempts :=
          [⟨1, some "abc", some "abc.example.com", none, some "pw123", "active", none, 14400⟩] } := by
  decide

set_option maxRecDepth 8192 in
/-- Claim C2, divergence of the serving handler: the first
(route-serving) create_session definition performs no duration
validation at all.  A request with duration_hours = 25, against a
script output echoing all four keys, is NOT rejected with 400: the
provisioner is invoked, a record with a 25-hour expiry (90000 seconds)
is inserted, and the request succeeds with 201.  Only the second, dead
definition contains the 1..24 check (second conjunct). -/
theorem C2_served_handler_skips_duration_validation :
    create_session_v1 [] 1 ⟨25, "admin"⟩ 0 (.ok full_output) true (.ok ()) =
      { result := .ok ⟨some "abc", some "abc.example.com", some "admin", some "pw123", 90000, "active"⟩,
        provisionCalls := 1,
        cleanupCalls := [],
        insertAttempts :=
          [⟨1, some "abc", some "abc.example.com", some "admin", some "pw123", "active", none, 90000⟩] } ∧
    (create_session_v2 [] 1 ⟨25, "admin"⟩ (.ok full_output) 0 0 true).result =
      .error ⟨400, "Duration must be between 1 and 24 hours."⟩ := by
  decide

/-- Claim C4, divergence of the serving handler: on a script output
with both markers but no SESSION_SUB line, the first (route-serving)
create_session definition checks only the markers, so it does NOT
return the unparsable-output error: the store insert succeeds with a
record whose session_sub field is absent (None) — a record with a
missing field IS persisted and never rolled back DB-side.  The
pydantic SessionResponse construction then raises inside the try, and
the except branch attempts the cleanup with the None sub, which dies
with an uncaught TypeError: the request surfaces the framework generic
500, never the "RDP script returned unparsable output." error.  The
second, dead definition would have rejected the same output (second
conjunct). -/
theorem C4_missing_key_record_still_inserted :
    create_session_v1 [] 1 ⟨4, "admin"⟩ 0 (.ok no_sub_output) true (.ok ()) =
      { result := .error ⟨500, "Internal Server Error"⟩,
        provisionCalls := 1,
        cleanupCalls := [none],
        insertAttempts :=
          [⟨1, none, some "abc.example.com", none, some "pw123", "active", none, 14400⟩] } ∧
    parse_output_v2 no_sub_output = none := by
  decide

/-- Claim C5: for a TerminateSession request on an active session owned
by the caller, a failing provisioner cleanup does not abort the
transition: the serving delete_session definition catches the
HTTPException, still updates the status of the session to the terminal
status "terminated", and answers 204. -/
theorem C5_terminate_survives_cleanup_failure (store : List SessionRow) (uid : Nat)
    (sub : String) (e : ApiError)
    (hfound : store.filter (fun r =>
        r.payload.session_sub == some sub &&
        r.payload.user_id == uid &&
        r.payload.status == "active") ≠ []) :
    terminate_spec store uid sub e := by
  unfold terminate_spec delete_session_v1
  rw [if_neg hfound, if_pos rfl]
  refine ⟨rfl, rfl, ?_⟩
  intro r hr hsub
  obtain ⟨x, hx, hfx⟩ := List.mem_map.mp hr
  by_cases hc : (x.payload.session_sub == some sub) = true
  · rw [← hfx, if_pos hc]
  · rw [← hfx, if_neg hc] at hsub
    exact absurd hsub hc

/-- Witness for C5 at a concrete one-session store. -/
theorem C5_terminate_survives_cleanup_failure_witness :
    ([demo_row1].filter (fun r =>
        r.payload.session_sub == some "s1" &&
        r.payload.user_id == 1 &&
        r.payload.status == "active") ≠ []) ∧
    terminate_spec [demo_row1] 1 "s1" ⟨500, "RDP script failed: device busy"⟩ :=
  ⟨by decide,
   C5_terminate_survives_cleanup_failure [demo_row1] 1 "s1"
     ⟨500, "RDP script failed: device busy"⟩ (by decide)⟩

/-- Claim C6: when a non-empty worker secret is configured, a
POST /api/v1/worker/cleanup request whose X-Worker-Secret header
differs from it is rejected with 401 and performs no reaping (store
untouched, no cleanup call, no results), and a request bearing the
correct secret runs exactly the ReapExpired body. -/
theorem C6_worker_secret_gates_reaping (s : String) (hdr : Option String) (now : Int)
    (store : List SessionRow) (co : Option String → Bool) (uo : Nat → Bool)
    (hs : s ≠ "") :
    (hdr ≠ some s →
      worker_cleanup_endpoint (some s) hdr now store co uo =
        { result := .error ⟨401, "Invalid Worker Secret"⟩, store := store,
          cleanupCalls := [], results := [] }) ∧
    (hdr = some s →
      worker_cleanup_endpoint (some s) hdr now store co uo =
        worker_cleanup_core now store co uo) := by
  constructor
  · intro hne
    simp [worker_cleanup_endpoint, worker_auth, hs, hne]
  · intro heq
    simp [worker_cleanup_endpoint, worker_auth, hs, heq]

/-- Witness for C6 with a wrong header against a configured secret. -/
theorem C6_worker_secret_gates_reaping_witness :
    ("topsecret" ≠ "") ∧ (some "wrong" ≠ some "topsecret") ∧
    worker_cleanup_endpoint (some "topsecret") (some "wrong") 10 c3_store
        (fun _ => true) (fun _ => true) =
      { result := .error ⟨401, "Invalid Worker Secret"⟩, store := c3_store,
        cleanupCalls := [], results := [] } :=
  ⟨by decide, by decide,
   (C6_worker_secret_gates_reaping "topsecret" (some "wrong") 10 c3_store
      (fun _ => true) (fun _ => true) (by decide)).1 (by decide)⟩

/-- Claim C7: a successful create (second definition, the one that
writes both timestamps) with duration d persists a record with
created_at = t2 (second clock read) and expires_at = t1 + 3600 * d
(first clock read), so expires_at - created_at is exactly d hours
minus the non-negative gap between the two clock reads, and expires_at
is strictly later than created_at whenever the gap is below d hours. -/
theorem C7_expiry_round_trip (store : List SessionRow) (uid : Nat) (input : SessionCreate)
    (out_s : String) (t1 t2 : Int) (sub fq pw : String)
    (h1 : 1 ≤ input.duration_hours) (h2 : input.duration_hours ≤ 24)
    (hact : store.filter (fun r => r.payload.user_id == uid && r.payload.status == "active") = [])
    (hp : parse_output_v2 out_s = some (sub, fq, pw))
    (hle : t1 ≤ t2) (htol : t2 - t1 < 3600 * input.duration_hours) :
    (create_session_v2 store uid input (.ok out_s) t1 t2 true).insertAttempts =
      [{ user_id := uid, session_sub := some sub, fqdn := some fq,
         rdp_username := some input.rdp_username, rdp_password := some pw,
         status := "active", created_at := some t2,
         expires_at := t1 + 3600 * input.duration_hours }] ∧
    (t1 + 3600 * input.duration_hours) - t2 = 3600 * input.duration_hours - (t2 - t1) ∧
    0 ≤ t2 - t1 ∧ t2 < t1 + 3600 * input.duration_hours := by
  refine ⟨?_, by omega, by omega, by omega⟩
  unfold create_session_v2
  rw [if_neg (fun hcon => hcon ⟨h1, h2⟩)]
  simp only [hact, hp, if_true]

/-- Witness for C7 at duration 4 with coinciding clock reads. -/
theorem C7_expiry_round_trip_witness :
    ((1 : Int) ≤ 4 ∧ parse_output_v2 good_output = some ("abc", "abc.example.com", "pw123")) ∧
    ((create_session_v2 [] 1 ⟨4, "admin"⟩ (.ok good_output) 1000 1000 true).insertAttempts =
        [c7_record] ∧
      ((1000 : Int) + 3600 * 4) - 1000 = 3600 * 4 - (1000 - 1000) ∧
      (0 : Int) ≤ 1000 - 1000 ∧ (1000 : Int) < 1000 + 3600 * 4) :=
  ⟨⟨by decide, by decide⟩,
   C7_expiry_round_trip [] 1 ⟨4, "admin"⟩ good_output 1000 1000 "abc" "abc.example.com" "pw123"
     (by decide) (by decide) (by decide) (by decide) (by decide) (by decide)⟩

/-- Claim C8: loading src/api/main.py fails with a NameError before any
endpoint can serve a request: the first name the admin_dashboard route
statement evaluates at import time that is bound nowhere in the module
is HTMLResponse, and the body additionally reads the never-bound
global name templates (which is not one of its parameters either). -/
theorem C8_admin_dashboard_name_error :
    first_undefined_name admin_dashboard_import_time_refs = some "HTMLResponse" ∧
    module_bound_names.contains "HTMLResponse" = false ∧
    module_bound_names.contains "templates" = false ∧
    "templates" ∈ admin_dashboard_body_free_refs ∧
    "templates" ∉ admin_dashboard_params := by
  decide

/-- Claim C9: the GET /api/v1/admin/sessions response is independent of
any X-API-Key credential (the route declares no auth dependency), and
on a reachable store it is exactly every stored session row of every
user, ordered newest first, each row carrying its plaintext
rdp_password field. -/
theorem C9_admin_sessions_ignore_credentials (k : Option String) (store : List SessionRow) :
    (∀ k1 k2 ok, admin_sessions_request k1 ok store = admin_sessions_request k2 ok store) ∧
    admin_sessions_request k true store = .ok (order_by_created_desc store) ∧
    (∀ r ∈ store, r ∈ order_by_created_desc store) := by
  refine ⟨fun _ _ _ => rfl, rfl, fun r hr => ?_⟩
  unfold order_by_created_desc
  exact (List.perm_insertionSort created_desc store).mem_iff.mpr hr

/-- Witness for C9: a stored row (password included) is in the response
no matter the credential. -/
theorem C9_admin_sessions_ignore_credentials_witness :
    demo_row1 ∈ order_by_created_desc [demo_row1, demo_row2] :=
  (C9_admin_sessions_ignore_credentials (some "any-key") [demo_row1, demo_row2]).2.2
    demo_row1 (by decide)

/-- Claim C10: AdminRevoke performs no lookup at all: the cleanup
script is invoked exactly once with the given sub for ANY sub, the
handler has no NotFound path (every error it can return is the 503
store failure), and when the update call succeeds it answers 204; if
no stored row carries the sub, the store is left unchanged. -/
theorem C10_admin_revoke_no_lookup (sub : String) (store : List SessionRow)
    (cr : Except ApiError Unit) (upd : Bool) :
    (admin_revoke_session sub store cr upd).cleanupCalls = [sub] ∧
    (∀ e, (admin_revoke_session sub store cr upd).result = .error e → e.code = 503) ∧
    (upd = true →
      (admin_revoke_session sub store cr upd).result = .ok 204 ∧
      ((∀ r ∈ store, (r.payload.session_sub == some sub) = false) →
        (admin_revoke_session sub store cr upd).store = store)) := by
  cases upd with
  | false =>
    refine ⟨rfl, ?_, ?_⟩
    · intro e he
      injection he with h
      rw [← h]
    · intro hupd
      exact absurd hupd (by decide)
  | true =>
    refine ⟨rfl, ?_, fun _ => ⟨rfl, ?_⟩⟩
    · intro e he
      simp [admin_revoke_session] at he
    · intro hnone
      apply list_map_self
      intro r hr
      simp [hnone r hr]

/-- Witness for C10 with a sub matching no stored session. -/
theorem C10_admin_revoke_no_lookup_witness :
    (admin_revoke_session "nosuch" [demo_row1] (.ok ()) true).result = .ok 204 ∧
    (admin_revoke_session "nosuch" [demo_row1] (.ok ()) true).store = [demo_row1] :=
  ⟨((C10_admin_revoke_no_lookup "nosuch" [demo_row1] (.ok ()) true).2.2 rfl).1,
   ((C10_admin_revoke_no_lookup "nosuch" [demo_row1] (.ok ()) true).2.2 rfl).2 (by decide)⟩
